import Mathlib

/-!
Shallow embedding of `yt_player.py`, a terminal YouTube player driving the
external tools yt-dlp and mpv.  Pure helpers (`format_duration`, the URL
fallback chains, selection parsing) are translated to Lean functions;
the command layer (interactive mode, quick search, the `search` and `play`
subcommands) is translated to functions producing an explicit trace of
observable events (tool checks, subprocess invocations, printed messages)
together with a termination outcome (normal return or process exit code).
Machine-level concerns (actual process spawning, the terminal) are abstracted
into an environment record describing tool availability and the captured
result of the single yt-dlp invocation a command performs.
-/

namespace YtPlayer

/-! ### Python string primitives used by the source -/

/-- Whitespace characters recognised by Python `str.strip` (ASCII range). -/
def isPySpace (c : Char) : Bool :=
  c = ' ' || c = '\t' || c = '\n' || c = '\x0d' || c = '\x0b' || c = '\x0c'

/-- Python `str.strip()`: drop leading and trailing whitespace. -/
def pyStrip (s : String) : String :=
  ⟨((s.data.dropWhile isPySpace).reverse.dropWhile isPySpace).reverse⟩

/-- Python `str.lower()` (ASCII letters). -/
def pyLower (s : String) : String :=
  ⟨s.data.map Char.toLower⟩

/-- Decimal value of an ASCII digit. -/
def digitVal (c : Char) : Nat := c.toNat - '0'.toNat

/-- Scanner for the digit part of Python `int(str)`: after the first digit,
digits may be separated by single underscores; an underscore must be followed
by a digit and may not end the literal. -/
def scanDigits (acc : Nat) : List Char → Option Nat
  | [] => some acc
  | '_' :: c :: rest =>
    if c.isDigit then scanDigits (acc * 10 + digitVal c) rest else none
  | c :: rest =>
    if c.isDigit then scanDigits (acc * 10 + digitVal c) rest else none

/-- Digit-sequence parser: at least one digit, underscores only between digits. -/
def parseDigitSeq : List Char → Option Nat
  | [] => none
  | c :: rest => if c.isDigit then scanDigits (digitVal c) rest else none

/-- Python `int(s)` on a string: optional surrounding whitespace, optional
sign, then a digit sequence with underscore separators.  Returns `none` where
CPython raises `ValueError`. -/
def pyIntOfString (s : String) : Option Int :=
  match (pyStrip s).data with
  | '+' :: rest => (parseDigitSeq rest).map Int.ofNat
  | '-' :: rest => (parseDigitSeq rest).map (fun n => -(n : Int))
  | l => (parseDigitSeq l).map Int.ofNat

/-- Python truthiness of an optional string (`None` and `""` are falsy). -/
def truthyS : Option String → Bool
  | none => false
  | some s => s ≠ ""

/-- Python `a or b` on optional strings: the first operand when truthy,
otherwise the second operand (even if itself falsy). -/
def pyOr (a b : Option String) : Option String :=
  if truthyS a then a else b

/-- Python `a or d` where the default `d` is a plain string. -/
def pyOrDefault (a : Option String) (d : String) : String :=
  match a with
  | some s => if s ≠ "" then s else d
  | none => d

/-! ### Duration formatting (`format_duration`, source lines 74-86) -/

/-- A Python value that can appear in the JSON `duration` field: `None`, an
int, a string, or a float (modelled as a rational). -/
inductive PyVal where
  | vnone : PyVal
  | vint (n : Int) : PyVal
  | vstr (s : String) : PyVal
  | vfloat (q : ℚ) : PyVal
  deriving DecidableEq

/-- Python `f"{n:02d}"`: left-pad the decimal rendering with zeros to
width 2 (only single nonnegative digits actually need padding). -/
def pad2 (n : Int) : String :=
  if 0 ≤ n ∧ n < 10 then "0" ++ toString n else toString n

/-- Truncation toward zero, the behaviour of Python `int(float)`. -/
def ratTrunc (q : ℚ) : Int :=
  if 0 ≤ q then q.floor else -((-q).floor)

/-- Python `int(x)` for the values a duration field can hold: ints pass
through, strings are parsed, floats truncate toward zero, `None` raises
(`none` here). -/
def pyIntOfVal : PyVal → Option Int
  | .vnone => none
  | .vint n => some n
  | .vstr s => pyIntOfString s
  | .vfloat q => some (ratTrunc q)

/-- Core of `format_duration` once an integer second count is obtained.
Python `//` and `%` on a positive divisor coincide with Euclidean division,
which is what `/` and `%` denote on `Int` in Lean. -/
def formatSeconds (seconds : Int) : String :=
  let h := seconds / 3600
  let m := (seconds % 3600) / 60
  let s := seconds % 60
  if h > 0 then toString h ++ ":" ++ pad2 m ++ ":" ++ pad2 s
  else toString m ++ ":" ++ pad2 s

/-- `format_duration` (source lines 74-86): `None` and values that fail
integer conversion render as a question mark. -/
def format_duration (v : PyVal) : String :=
  match v with
  | .vnone => "?"
  | _ =>
    match pyIntOfVal v with
    | none => "?"
    | some n => formatSeconds n

/-! ### Search results and JSON payload -/

/-- One search result entry (a JSON object).  A field holds `none` when the
key is absent or mapped to JSON `null`, mirroring Python `dict.get`. -/
structure Entry where
  title : Option String
  uploader : Option String
  channel : Option String
  duration : PyVal
  webpage_url : Option String
  url : Option String
  deriving DecidableEq

/-- The `entries` field of the yt-dlp JSON document: absent, `null`, or a
list of entries. -/
inductive EntriesField where
  | absent : EntriesField
  | null : EntriesField
  | list (l : List Entry) : EntriesField
  deriving DecidableEq

/-- The parsed yt-dlp JSON document, restricted to the field the program
reads. -/
structure JDoc where
  entries : EntriesField
  deriving DecidableEq

/-- Captured outcome of the yt-dlp subprocess: exit code and the text
collected from its standard output and standard error. -/
structure ProcResult where
  returncode : Int
  out : String
  err : String
  deriving DecidableEq

/-- Result of `run_yt_dlp_json`: either the whole program exits with a code
after printing some messages, or a parsed document is returned. -/
inductive RunOutcome (α : Type) where
  | exit (code : Int) (msgs : List String) : RunOutcome α
  | ok (v : α) : RunOutcome α
  deriving DecidableEq

/-- `run_yt_dlp_json` (source lines 41-64), value level.  `parsed` stands for
`json.loads` applied to the captured stdout (the JSON library is external):
`some d` when the text is valid JSON, `none` when parsing raises. -/
def run_yt_dlp_json (r : ProcResult) (parsed : Option JDoc) : RunOutcome JDoc :=
  if r.returncode ≠ 0 then
    .exit r.returncode
      ("yt-dlp failed:" :: (if r.err ≠ "" then [pyStrip r.err] else []))
  else
    match parsed with
    | some d => .ok d
    | none => .exit 1 ["Failed to parse yt-dlp output."]

/-- Normalisation `data.get("entries") or []` (source line 70). -/
def entriesOf (d : JDoc) : List Entry :=
  match d.entries with
  | .absent => []
  | .null => []
  | .list l => l

/-- `search` (source lines 67-71), value level: run yt-dlp on the search
target and normalise the entry list. -/
def searchValue (r : ProcResult) (parsed : Option JDoc) : RunOutcome (List Entry) :=
  match run_yt_dlp_json r parsed with
  | .exit c msgs => .exit c msgs
  | .ok d => .ok (entriesOf d)

/-! ### URL fallback chains (the three use sites) -/

/-- URL shown by `print_results` (source line 94):
`entry.get("webpage_url") or entry.get("url") or ""`. -/
def printedUrl (e : Entry) : String :=
  pyOrDefault (pyOr e.webpage_url e.url) ""

/-- URL played by `play_queue` (source line 123):
`entry.get("webpage_url") or entry.get("url")`. -/
def queueUrl (e : Entry) : Option String :=
  pyOr e.webpage_url e.url

/-- URL resolved by the `play --search` path (source line 258):
`entries[0].get("webpage_url") or entries[0].get("url")`. -/
def playSearchUrl (e : Entry) : Option String :=
  pyOr e.webpage_url e.url

/-- Title fallback `entry.get("title") or "(no title)"` (lines 91 and 124). -/
def titleOf (e : Entry) : String :=
  pyOrDefault e.title "(no title)"

/-- Uploader fallback (source line 92). -/
def uploaderOf (e : Entry) : String :=
  pyOrDefault (pyOr e.uploader e.channel) "?"

/-! ### Observable events of a command invocation -/

/-- Observable actions of the command layer. -/
inductive Ev where
  | checkTool (name : String) : Ev
  | msg (s : String) : Ev
  | searchCall (target : String) : Ev
  | playCall (url : String) (video : Bool) : Ev
  | clearScreen : Ev
  deriving DecidableEq

/-- How a command invocation ends: normal return or process exit. -/
inductive Term where
  | ret : Term
  | exit (code : Int) : Term
  deriving DecidableEq

/-- Abstract execution environment of one command invocation: which
executables `shutil.which` resolves, whether stdout is a terminal, and the
captured result (and parse outcome) of the single yt-dlp invocation the
command may perform. -/
structure Env where
  avail : String → Bool
  tty : Bool
  proc : ProcResult
  parsed : Option JDoc

/-- Messages printed by `require_tool` when the tool is missing
(source lines 14-21). -/
def missingToolMsgs (name : String) : List Ev :=
  [.msg ("Error: '" ++ name ++ "' not found in PATH.")] ++
    (if name = "yt-dlp" then [.msg "Install yt-dlp (package or pip) and try again."]
     else if name = "mpv" then [.msg "Install mpv and try again."] else [])

/-- `require_tool` followed by a continuation: emit the check, and either
continue or print guidance and exit 1 (source lines 14-21). -/
def requireTool (env : Env) (name : String) (k : List Ev × Term) : List Ev × Term :=
  if env.avail name then (.checkTool name :: k.1, k.2)
  else (.checkTool name :: missingToolMsgs name, .exit 1)

/-- The search step inside a command: one yt-dlp invocation (source line 69),
then either the program exits (propagating the messages `run_yt_dlp_json`
prints) or the normalised entries come back. -/
def searchStep (env : Env) (target : String) : List Ev × Except Int (List Entry) :=
  match searchValue env.proc env.parsed with
  | .exit c msgs => (.searchCall target :: msgs.map .msg, .error c)
  | .ok entries => ([.searchCall target], .ok entries)

/-- `clear_screen` (source lines 109-112): clears only when stdout is a tty. -/
def clearScreenEvs (env : Env) : List Ev :=
  if env.tty then [.clearScreen] else []

/-- `play_url` (source lines 100-106): check mpv, then invoke it on the URL.
Returns the events and `some code` when the program exits (missing mpv). -/
def play_url (env : Env) (url : String) (video : Bool) : List Ev × Option Int :=
  if env.avail "mpv" then ([.checkTool "mpv", .playCall url video], none)
  else (.checkTool "mpv" :: missingToolMsgs "mpv", some 1)

/-- Loop body of `play_queue` (source lines 121-129) over the remaining
entries, carrying the absolute index of the head entry. -/
def pqLoop (env : Env) (video : Bool) : List Entry → Nat → List Ev × Term
  | [], _ => ([], .ret)
  | e :: rest, i =>
    match queueUrl e with
    | none => pqLoop env video rest (i + 1)
    | some u =>
      if u = "" then pqLoop env video rest (i + 1)
      else
        let pu := play_url env u video
        match pu.2 with
        | some c =>
          (clearScreenEvs env ++ (.msg ("Now playing: " ++ titleOf e) :: pu.1), .exit c)
        | none =>
          let k := pqLoop env video rest (i + 1)
          (clearScreenEvs env ++ (.msg ("Now playing: " ++ titleOf e) :: pu.1) ++ k.1, k.2)

/-- `play_queue` (source lines 115-129): silent no-op on an empty list or an
out-of-range start index, otherwise the autoplay banner followed by the loop
from `start_idx`. -/
def play_queue (env : Env) (entries : List Entry) (start_idx : Int) (video : Bool) :
    List Ev × Term :=
  if entries.isEmpty then ([], .ret)
  else if start_idx < 0 ∨ (entries.length : Int) ≤ start_idx then ([], .ret)
  else
    let k := pqLoop env video (entries.drop start_idx.toNat) start_idx.toNat
    (.msg "Autoplay aktif: akan memutar urutan berikutnya. Tekan Ctrl+C untuk berhenti." :: k.1,
      k.2)

/-! ### Presentation (`print_results`, source lines 89-97) -/

/-- Python `f"{idx:>2}"`: right-align in width 2. -/
def rightAlign2 (n : Nat) : String :=
  if n < 10 then " " ++ toString n else toString n

/-- The main listing line for one entry (source line 95). -/
def resultLine (idx : Nat) (e : Entry) : String :=
  rightAlign2 idx ++ ". " ++ titleOf e ++ " [" ++ format_duration e.duration ++ "] - "
    ++ uploaderOf e

/-- `print_results` (source lines 89-97): one numbered line per entry, and an
indented URL line exactly when the fallback URL is nonempty. -/
def print_results (entries : List Entry) : List Ev :=
  (entries.enumFrom 1).flatMap (fun p =>
    .msg (resultLine p.1 p.2) ::
      (if printedUrl p.2 ≠ "" then [.msg ("    " ++ printedUrl p.2)] else []))

/-! ### Session / command layer (source lines 132-269) -/

/-- The quit sentinels recognised at every prompt (lines 138, 149, 162, 221). -/
def quitSet : List String := ["q", "quit", "exit"]

/-- Selection handling of the quick-search command (source lines 220-233):
quit sentinel and blank return silently, non-numeric input prints a message,
out-of-range prints a message, and a valid number starts the queue at the
zero-based index. -/
def quickSel (env : Env) (entries : List Entry) (choice : String) (video : Bool) :
    List Ev × Term :=
  let c := pyStrip choice
  if pyLower c ∈ quitSet then ([], .ret)
  else if c = "" then ([], .ret)
  else
    match pyIntOfString c with
    | none => ([.msg "Invalid number."], .ret)
    | some idx =>
      if idx < 1 ∨ (entries.length : Int) < idx then ([.msg "Out of range."], .ret)
      else play_queue env entries (idx - 1) video

/-- Selection and mode handling of interactive mode (source lines 148-165):
like `quickSel` but followed by the audio/video prompt, whose quit sentinel
also returns and which plays video exactly when the lowered input is "v". -/
def interactiveSel (env : Env) (entries : List Entry) (choice mode : String) :
    List Ev × Term :=
  let c := pyStrip choice
  if pyLower c ∈ quitSet then ([], .ret)
  else if c = "" then ([], .ret)
  else
    match pyIntOfString c with
    | none => ([.msg "Invalid number."], .ret)
    | some idx =>
      if idx < 1 ∨ (entries.length : Int) < idx then ([.msg "Out of range."], .ret)
      else
        let m := pyLower (pyStrip mode)
        if m ∈ quitSet then ([], .ret)
        else play_queue env entries (idx - 1) (m = "v")

/-- Body of `interactive` (source lines 132-165) after the two tool checks,
fed the three prompt answers. -/
def interactiveBody (env : Env) (query choice mode : String) : List Ev × Term :=
  let banner := Ev.msg "Ketik 'q' untuk keluar kapan saja."
  let q := pyStrip query
  if pyLower q ∈ quitSet then ([banner], .ret)
  else if q = "" then ([banner, .msg "No query provided."], .ret)
  else
    let st := searchStep env ("ytsearch10:" ++ q)
    match st.2 with
    | .error c => (banner :: st.1, .exit c)
    | .ok entries =>
      if entries.isEmpty then (banner :: st.1 ++ [.msg "No results."], .ret)
      else
        let sel := interactiveSel env entries choice mode
        (banner :: st.1 ++ print_results entries ++ sel.1, sel.2)

/-- `interactive` (source lines 132-165). -/
def interactiveRun (env : Env) (query choice mode : String) : List Ev × Term :=
  requireTool env "yt-dlp" (requireTool env "mpv" (interactiveBody env query choice mode))

/-- Body of the quick-search path (source lines 212-234) after the tool
checks. -/
def quickSearchBody (env : Env) (queryArg : String) (limit : Int) (video : Bool)
    (choice : String) : List Ev × Term :=
  let st := searchStep env ("ytsearch" ++ toString limit ++ ":" ++ queryArg)
  match st.2 with
  | .error c => (st.1, .exit c)
  | .ok entries =>
    if entries.isEmpty then (st.1 ++ [.msg "No results."], .ret)
    else
      let sel := quickSel env entries choice video
      (st.1 ++ print_results entries ++ sel.1, sel.2)

/-- The quick-search command, flag `-s` alias `--search` (source lines
212-234). -/
def quickSearchRun (env : Env) (queryArg : String) (limit : Int) (video : Bool)
    (choice : String) : List Ev × Term :=
  requireTool env "yt-dlp" (requireTool env "mpv"
    (quickSearchBody env queryArg limit video choice))

/-- The `search` subcommand (source lines 240-248); `query` stands for the
already-joined query words. -/
def searchCmdRun (env : Env) (query : String) (limit : Int) : List Ev × Term :=
  requireTool env "yt-dlp"
    (let st := searchStep env ("ytsearch" ++ toString limit ++ ":" ++ query)
     match st.2 with
     | .error c => (st.1, .exit c)
     | .ok entries =>
       if entries.isEmpty then (st.1 ++ [.msg "No results."], .ret)
       else (st.1 ++ print_results entries, .ret))

/-- Lift the outcome of `play_url` to a command outcome, given the events
already produced. -/
def finishPlay (pre : List Ev) (pu : List Ev × Option Int) : List Ev × Term :=
  match pu.2 with
  | some c => (pre ++ pu.1, .exit c)
  | none => (pre ++ pu.1, .ret)

/-- The `play` subcommand (source lines 250-265); `target` stands for the
already-joined target words. -/
def playCmdRun (env : Env) (target : String) (video doSearch : Bool) : List Ev × Term :=
  requireTool env "yt-dlp"
    (if doSearch then
      let st := searchStep env ("ytsearch1:" ++ target)
      match st.2 with
      | .error c => (st.1, .exit c)
      | .ok entries =>
        match entries with
        | [] => (st.1 ++ [.msg "No results."], .ret)
        | e :: _ =>
          match playSearchUrl e with
          | none => (st.1 ++ [.msg "Missing URL for selection."], .ret)
          | some u =>
            if u = "" then (st.1 ++ [.msg "Missing URL for selection."], .ret)
            else finishPlay st.1 (play_url env u video)
    else finishPlay [] (play_url env target video))

/-! ### Step-level model of `run_yt_dlp_json` (source lines 41-64) -/

/-- The primitive steps `run_yt_dlp_json` performs, in program order. -/
inductive RStep where
  | popen : RStep
  | spinnerStart : RStep
  | communicateRead : RStep
  | stopSignal : RStep
  | threadJoin : RStep
  | consumeOutput : RStep
  deriving DecidableEq

/-- The spinner is shown when a label is supplied and stdout is a tty
(source line 46). -/
def spinnerShown (label : String) (tty : Bool) : Bool :=
  label ≠ "" && tty

/-- Program-order step sequence of `run_yt_dlp_json` (source lines 41-61):
spawn, optionally start the spinner, `communicate()` (which waits for the
child and reads the captured output), set the stop event, join the spinner
thread if one was started, then act on the captured output. -/
def runSteps (showSpinner : Bool) : List RStep :=
  [.popen] ++ (if showSpinner then [.spinnerStart] else [])
    ++ [.communicateRead, .stopSignal]
    ++ (if showSpinner then [.threadJoin] else [])
    ++ [.consumeOutput]

/-! ### Derived notions used by the statements -/

/-- The truthy value of the playback URL chain: `some u` exactly when the
entry has a nonempty URL after the fallback. -/
def truthyUrl (e : Entry) : Option String :=
  match queueUrl e with
  | none => none
  | some u => if u = "" then none else some u

/-- Events one visited entry contributes to the autoplay loop: nothing when
its URL chain is falsy, otherwise the screen clear, the banner, the mpv
check, and the playback call. -/
def playedEvsFor (env : Env) (video : Bool) (p : Nat × Entry) : List Ev :=
  match truthyUrl p.2 with
  | none => []
  | some u =>
    clearScreenEvs env ++ [.msg ("Now playing: " ++ titleOf p.2), .checkTool "mpv",
      .playCall u video]

/-- Indices the autoplay loop actually plays when started at `k`. -/
def playedIdxs (entries : List Entry) (k : Nat) : List Nat :=
  (((entries.drop k).enumFrom k).filter (fun p => (truthyUrl p.2).isSome)).map Prod.fst

/-- Scans a trace: `true` iff a check of `name` occurs before the first
subprocess search call (vacuously `true` when no search call occurs). -/
def checkBeforeSearch (name : String) : List Ev → Bool
  | [] => true
  | .checkTool n :: rest => if n = name then true else checkBeforeSearch name rest
  | .searchCall _ :: _ => false
  | _ :: rest => checkBeforeSearch name rest

/-- Scans a trace: `true` iff a check of `name` occurs before the first
player invocation (vacuously `true` when no player call occurs). -/
def checkBeforePlay (name : String) : List Ev → Bool
  | [] => true
  | .checkTool n :: rest => if n = name then true else checkBeforePlay name rest
  | .playCall _ _ :: _ => false
  | _ :: rest => checkBeforePlay name rest

/-- A search event? -/
def isSearchEv : Ev → Bool
  | .searchCall _ => true
  | _ => false

/-- A player invocation event? -/
def isPlayEv : Ev → Bool
  | .playCall _ _ => true
  | _ => false

/-! ### Sample data used by witnesses and counterexamples -/

/-- An entry whose only URL field is a nonempty `webpage_url`. -/
def entA : Entry := ⟨some "A", some "up", none, .vint 30, some "https://a", none⟩

/-- An entry whose `webpage_url` is absent and whose `url` is nonempty. -/
def entB : Entry := ⟨some "B", none, some "ch", .vint 90, none, some "https://b"⟩

/-- An entry whose URL fields are both present but empty. -/
def entC : Entry := ⟨none, none, none, .vnone, some "", some ""⟩

/-- An environment where both tools resolve, stdout is not a tty, and the
yt-dlp invocation succeeds with three entries. -/
def sampleEnv : Env :=
  ⟨fun n => n == "yt-dlp" || n == "mpv", false, ⟨0, "x", ""⟩,
    some ⟨.list [entA, entC, entB]⟩⟩

/-- Like `sampleEnv`, but the captured JSON document has `entries` null. -/
def sampleEnvNull : Env :=
  ⟨fun n => n == "yt-dlp" || n == "mpv", false, ⟨0, "null", ""⟩, some ⟨.null⟩⟩

/-- An environment where no external tool resolves. -/
def sampleEnvNoTools : Env :=
  ⟨fun _ => false, false, ⟨0, "", ""⟩, none⟩

/-- An environment where only yt-dlp resolves (mpv is missing) and the
search succeeds with three entries. -/
def sampleEnvNoMpv : Env :=
  ⟨fun n => n == "yt-dlp", false, ⟨0, "x", ""⟩, some ⟨.list [entA, entC, entB]⟩⟩

/-! ### Helper lemmas -/

theorem cbs_check_eq (name : String) (rest : List Ev) :
    checkBeforeSearch name (.checkTool name :: rest) = true := by
  simp [checkBeforeSearch]

theorem cbs_check_ne {n name : String} (h : n ≠ name) (rest : List Ev) :
    checkBeforeSearch name (.checkTool n :: rest) = checkBeforeSearch name rest := by
  simp [checkBeforeSearch, h]

theorem cbp_check_eq (name : String) (rest : List Ev) :
    checkBeforePlay name (.checkTool name :: rest) = true := by
  simp [checkBeforePlay]

theorem cbp_check_ne {n name : String} (h : n ≠ name) (rest : List Ev) :
    checkBeforePlay name (.checkTool n :: rest) = checkBeforePlay name rest := by
  simp [checkBeforePlay, h]

theorem cbp_msg (name m : String) (rest : List Ev) :
    checkBeforePlay name (.msg m :: rest) = checkBeforePlay name rest := rfl

theorem cbp_searchCall (name t : String) (rest : List Ev) :
    checkBeforePlay name (.searchCall t :: rest) = checkBeforePlay name rest := rfl

theorem cbp_nil (name : String) : checkBeforePlay name [] = true := rfl

theorem cbp_map_msg (name : String) (msgs : List String) :
    checkBeforePlay name (msgs.map Ev.msg) = true := by
  induction msgs with
  | nil => rfl
  | cons m ms ih => simpa [cbp_msg] using ih

/-! ### Claim theorems -/

/-- Claim C4: for every duration value d, a null or non-convertible d renders
as the single character "?"; d ≥ 3600 renders as H:MM:SS with minutes and
seconds zero-padded to width 2; 0 ≤ d < 3600 renders as M:SS with seconds
zero-padded; float seconds are truncated (not rounded) to an integer; and
45, 125 and 3661 render as "0:45", "2:05" and "1:01:01". -/
theorem claim_C4 (n : Int) :
    (0 ≤ n → n < 3600 →
      format_duration (.vint n) = toString (n / 60) ++ ":" ++ pad2 (n % 60)) ∧
    (3600 ≤ n →
      format_duration (.vint n) =
        toString (n / 3600) ++ ":" ++ pad2 ((n % 3600) / 60) ++ ":" ++ pad2 (n % 60)) ∧
    format_duration .vnone = "?" ∧
    (∀ s : String, pyIntOfString s = none → format_duration (.vstr s) = "?") ∧
    (∀ q : ℚ, format_duration (.vfloat q) = format_duration (.vint (ratTrunc q))) ∧
    format_duration (.vint 45) = "0:45" ∧
    format_duration (.vint 125) = "2:05" ∧
    format_duration (.vint 3661) = "1:01:01" := by
  refine ⟨?_, ?_, rfl, ?_, fun q => rfl, by decide, by decide, by decide⟩
  · intro h0 h1
    have hz : n / 3600 = 0 := by omega
    have hm : n % 3600 = n := by omega
    simp only [format_duration, pyIntOfVal, formatSeconds, hz, hm]
    simp
  · intro h
    have hp : n / 3600 > 0 := by omega
    simp only [format_duration, pyIntOfVal, formatSeconds, if_pos hp]
  · intro s hs
    simp [format_duration, pyIntOfVal, hs]

/-- Claim C4 witness at d = 125. -/
theorem claim_C4_witness :
    format_duration (.vint 125) = toString ((125 : Int) / 60) ++ ":" ++ pad2 ((125 : Int) % 60) :=
  (claim_C4 125).1 (by decide) (by decide)

/-- Claim C3: whenever the captured yt-dlp subprocess exits nonzero, the
program terminates with that same exit code, after printing the failure
banner first and the captured (stripped) stderr text when there is any. -/
theorem claim_C3 (r : ProcResult) (parsed : Option JDoc) (h : r.returncode ≠ 0) :
    ∃ msgs, run_yt_dlp_json r parsed = .exit r.returncode msgs ∧
      msgs.head? = some "yt-dlp failed:" ∧
      (r.err ≠ "" → pyStrip r.err ∈ msgs) := by
  refine ⟨"yt-dlp failed:" :: (if r.err ≠ "" then [pyStrip r.err] else []), ?_, rfl, ?_⟩
  · simp [run_yt_dlp_json, h]
  · intro he
    simp [he]

/-- Claim C3 witness: exit code 2 with stderr text " boom ". -/
theorem claim_C3_witness :
    ∃ msgs, run_yt_dlp_json ⟨2, "", " boom "⟩ none = .exit 2 msgs ∧
      msgs.head? = some "yt-dlp failed:" ∧
      (" boom " ≠ "" → pyStrip " boom " ∈ msgs) :=
  claim_C3 ⟨2, "", " boom "⟩ none (by decide)

/-- Claim C5: a yt-dlp invocation exiting 0 with valid JSON whose entries
field is null or absent yields an empty result list from search (not an
error), and the search command reports "No results." and returns normally. -/
theorem claim_C5 (env : Env) (q : String) (limit : Int) (d : JDoc)
    (h1 : env.avail "yt-dlp" = true) (h2 : env.proc.returncode = 0)
    (h3 : env.parsed = some d) (h4 : d.entries = .null ∨ d.entries = .absent) :
    searchValue env.proc env.parsed = .ok [] ∧
    searchCmdRun env q limit =
      ([.checkTool "yt-dlp", .searchCall ("ytsearch" ++ toString limit ++ ":" ++ q),
        .msg "No results."], .ret) := by
  have hsv : searchValue env.proc env.parsed = .ok [] := by
    rcases h4 with h | h <;>
      simp [searchValue, run_yt_dlp_json, h2, h3, entriesOf, h]
  refine ⟨hsv, ?_⟩
  simp [searchCmdRun, requireTool, h1, searchStep, hsv]

/-- Claim C5 witness: entries-null document through the search command. -/
theorem claim_C5_witness :
    searchValue sampleEnvNull.proc sampleEnvNull.parsed = .ok [] ∧
    searchCmdRun sampleEnvNull "hello" 3 =
      ([.checkTool "yt-dlp", .searchCall ("ytsearch" ++ toString (3 : Int) ++ ":" ++ "hello"),
        .msg "No results."], .ret) :=
  claim_C5 sampleEnvNull "hello" 3 ⟨.null⟩ rfl rfl rfl (Or.inl rfl)

/-- With mpv resolvable, the autoplay loop over the remaining entries is the
concatenation of each visited entry's events, entries being visited in order
with their absolute indices. -/
theorem pqLoop_eq (env : Env) (video : Bool) (h : env.avail "mpv" = true)
    (l : List Entry) : ∀ i : Nat,
    pqLoop env video l i = ((l.enumFrom i).flatMap (playedEvsFor env video), .ret) := by
  induction l with
  | nil => intro i; simp [pqLoop]
  | cons e rest ih =>
    intro i
    rcases hq : queueUrl e with _ | u
    · simp [pqLoop, hq, ih, playedEvsFor, truthyUrl]
    · by_cases hu : u = ""
      · simp [pqLoop, hq, hu, ih, playedEvsFor, truthyUrl]
      · simp [pqLoop, hq, hu, ih, playedEvsFor, truthyUrl, play_url, h]

/-- The indices the autoplay loop plays are strictly increasing: no index is
ever revisited. -/
theorem playedIdxs_pairwise (entries : List Entry) (k : Nat) :
    (playedIdxs entries k).Pairwise (· < ·) := by
  unfold playedIdxs
  apply List.Pairwise.sublist (List.Sublist.map Prod.fst (List.filter_sublist _))
  rw [List.enumFrom_map_fst]
  exact List.pairwise_lt_range' k _

/-- Claim C1: with 0 ≤ i < N, play_queue visits exactly the entries at
indices i..N-1 in order — each contributing its playback events when its URL
chain is truthy and nothing at all (no play, no diagnostic) otherwise — and
the played indices are strictly increasing (no index revisited); with N = 0
or i out of range it performs no action and returns. -/
theorem claim_C1 (env : Env) (entries : List Entry) (i : Int) (video : Bool)
    (hm : env.avail "mpv" = true) :
    ((entries = [] ∨ i < 0 ∨ (entries.length : Int) ≤ i) →
      play_queue env entries i video = ([], .ret)) ∧
    (0 ≤ i → i < (entries.length : Int) →
      play_queue env entries i video =
        (.msg "Autoplay aktif: akan memutar urutan berikutnya. Tekan Ctrl+C untuk berhenti." ::
          ((entries.drop i.toNat).enumFrom i.toNat).flatMap (playedEvsFor env video), .ret) ∧
      (playedIdxs entries i.toNat).Pairwise (· < ·)) := by
  constructor
  · intro h
    rcases h with h | h | h
    · simp [play_queue, h]
    · simp [play_queue, h]
    · simp [play_queue, h]
  · intro h0 h1
    refine ⟨?_, playedIdxs_pairwise entries i.toNat⟩
    rcases entries with _ | ⟨e, rest⟩
    · simp at h1; omega
    · have hc : ¬(i < 0 ∨ (((e :: rest).length : Nat) : Int) ≤ i) := by
        push_neg
        exact ⟨h0, h1⟩
      simp only [play_queue, List.isEmpty_cons, if_neg hc]
      rw [pqLoop_eq env video hm]
      simp

/-- Claim C1 witness: start index 1 of a three-entry list whose middle entry
has empty URL fields. -/
theorem claim_C1_witness :
    play_queue sampleEnv [entA, entC, entB] 1 false =
      (.msg "Autoplay aktif: akan memutar urutan berikutnya. Tekan Ctrl+C untuk berhenti." ::
        (([entA, entC, entB].drop (1 : Int).toNat).enumFrom (1 : Int).toNat).flatMap
          (playedEvsFor sampleEnv false), .ret) ∧
    (playedIdxs [entA, entC, entB] (1 : Int).toNat).Pairwise (· < ·) :=
  (claim_C1 sampleEnv [entA, entC, entB] 1 false (by decide)).2 (by decide) (by decide)

/-- Claim C2 counterexample: the selection input "q" is non-numeric, yet the
selection step of both the quick-search command and interactive mode returns
silently — no "Invalid number." or "Out of range." message is printed, so
not every non-numeric input produces an InvalidSelection message. -/
theorem claim_C2_cex :
    pyIntOfString (pyStrip "q") = none ∧
    quickSel sampleEnv [entA, entC, entB] "q" false = ([], .ret) ∧
    interactiveSel sampleEnv [entA, entC, entB] "q" "a" = ([], .ret) :=
  ⟨by decide, by decide, by decide⟩

/-- Claim C2 (amended): at both numeric selection prompts (quick-search and
interactive), selection inputs parsing to an integer in [1, N] are accepted
and start playback at the zero-based index value - 1 (interactive after its
play-mode prompt, playing video exactly when that answer lowers to "v");
blank input and the quit sentinels return silently; every other input
produces an InvalidSelection message ("Invalid number." when non-numeric,
"Out of range." when the integer lies outside [1, N]) and returns without
starting playback. -/
theorem claim_C2_amended (env : Env) (entries : List Entry) (choice mode : String)
    (v : Int) (video : Bool) :
    (pyLower (pyStrip choice) ∈ quitSet ∨ pyStrip choice = "" →
      quickSel env entries choice video = ([], .ret)) ∧
    (pyLower (pyStrip choice) ∉ quitSet → pyStrip choice ≠ "" →
      pyIntOfString (pyStrip choice) = none →
      quickSel env entries choice video = ([.msg "Invalid number."], .ret)) ∧
    (pyLower (pyStrip choice) ∉ quitSet →
      pyIntOfString (pyStrip choice) = some v →
      (v < 1 ∨ (entries.length : Int) < v) →
      quickSel env entries choice video = ([.msg "Out of range."], .ret)) ∧
    (pyLower (pyStrip choice) ∉ quitSet →
      pyIntOfString (pyStrip choice) = some v →
      1 ≤ v → v ≤ (entries.length : Int) →
      quickSel env entries choice video = play_queue env entries (v - 1) video) ∧
    (pyLower (pyStrip choice) ∈ quitSet ∨ pyStrip choice = "" →
      interactiveSel env entries choice mode = ([], .ret)) ∧
    (pyLower (pyStrip choice) ∉ quitSet → pyStrip choice ≠ "" →
      pyIntOfString (pyStrip choice) = none →
      interactiveSel env entries choice mode = ([.msg "Invalid number."], .ret)) ∧
    (pyLower (pyStrip choice) ∉ quitSet →
      pyIntOfString (pyStrip choice) = some v →
      (v < 1 ∨ (entries.length : Int) < v) →
      interactiveSel env entries choice mode = ([.msg "Out of range."], .ret)) ∧
    (pyLower (pyStrip choice) ∉ quitSet →
      pyIntOfString (pyStrip choice) = some v →
      1 ≤ v → v ≤ (entries.length : Int) →
      pyLower (pyStrip mode) ∉ quitSet →
      interactiveSel env entries choice mode =
        play_queue env entries (v - 1) (pyLower (pyStrip mode) = "v")) := by
  refine ⟨?_, ?_, ?_, ?_, ?_, ?_, ?_, ?_⟩
  · intro h
    by_cases hq : pyLower (pyStrip choice) ∈ quitSet
    · simp [quickSel, hq]
    · rcases h with h | h
      · exact absurd h hq
      · simp [quickSel, hq, h]
  · intro h1 h2 h3
    simp [quickSel, h1, h2, h3]
  · intro h1 h2 h3
    have hne : pyStrip choice ≠ "" := by
      intro he
      rw [he, show pyIntOfString "" = none from rfl] at h2
      exact Option.noConfusion h2
    simp [quickSel, h1, hne, h2, h3]
  · intro h1 h2 h3 h4
    have hne : pyStrip choice ≠ "" := by
      intro he
      rw [he, show pyIntOfString "" = none from rfl] at h2
      exact Option.noConfusion h2
    have h5 : ¬(v < 1 ∨ (entries.length : Int) < v) := by
      push_neg
      exact ⟨h3, h4⟩
    simp [quickSel, h1, hne, h2, h5]
  · intro h
    by_cases hq : pyLower (pyStrip choice) ∈ quitSet
    · simp [interactiveSel, hq]
    · rcases h with h | h
      · exact absurd h hq
      · simp [interactiveSel, hq, h]
  · intro h1 h2 h3
    simp [interactiveSel, h1, h2, h3]
  · intro h1 h2 h3
    have hne : pyStrip choice ≠ "" := by
      intro he
      rw [he, show pyIntOfString "" = none from rfl] at h2
      exact Option.noConfusion h2
    simp [interactiveSel, h1, hne, h2, h3]
  · intro h1 h2 h3 h4 hmode
    have hne : pyStrip choice ≠ "" := by
      intro he
      rw [he, show pyIntOfString "" = none from rfl] at h2
      exact Option.noConfusion h2
    have h5 : ¬(v < 1 ∨ (entries.length : Int) < v) := by
      push_neg
      exact ⟨h3, h4⟩
    simp [interactiveSel, h1, hne, h2, h5, hmode]

/-- Claim C2 witness: input " 2 " at the quick-search prompt starts playback
at zero-based index 1; input "3" plus mode "v" at the interactive prompts
starts playback at zero-based index 2 as video; input "abc" at the
interactive prompt prints "Invalid number.". -/
theorem claim_C2_witness :
    quickSel sampleEnv [entA, entC, entB] " 2 " true =
      play_queue sampleEnv [entA, entC, entB] ((2 : Int) - 1) true ∧
    interactiveSel sampleEnv [entA, entC, entB] "3" "v" =
      play_queue sampleEnv [entA, entC, entB] ((3 : Int) - 1)
        (pyLower (pyStrip "v") = "v") ∧
    interactiveSel sampleEnv [entA, entC, entB] "abc" "a" =
      ([.msg "Invalid number."], .ret) :=
  ⟨(claim_C2_amended sampleEnv [entA, entC, entB] " 2 " "a" 2 true).2.2.2.1
      (by decide) (by decide) (by decide) (by decide),
    (claim_C2_amended sampleEnv [entA, entC, entB] "3" "v" 3 true).2.2.2.2.2.2.2
      (by decide) (by decide) (by decide) (by decide) (by decide),
    (claim_C2_amended sampleEnv [entA, entC, entB] "abc" "a" 0 true).2.2.2.2.2.1
      (by decide) (by decide) (by decide)⟩

/-- Claim C7: a quit sentinel (q, quit or exit, any letter case) at the
query prompt ends interactive mode right after the instruction banner with no
search and no playback; at the selection prompt (interactive or quick-search)
it returns with no further events at all; at the play-mode prompt it returns
with no further events, so no playback starts. -/
theorem claim_C7 (env : Env) (query choice mode : String) (entries : List Entry)
    (video : Bool) (v : Int) :
    (env.avail "yt-dlp" = true → env.avail "mpv" = true →
      pyLower (pyStrip query) ∈ quitSet →
      interactiveRun env query choice mode =
        ([.checkTool "yt-dlp", .checkTool "mpv",
          .msg "Ketik 'q' untuk keluar kapan saja."], .ret)) ∧
    (pyLower (pyStrip choice) ∈ quitSet →
      interactiveSel env entries choice mode = ([], .ret) ∧
      quickSel env entries choice video = ([], .ret)) ∧
    (pyLower (pyStrip choice) ∉ quitSet →
      pyIntOfString (pyStrip choice) = some v →
      1 ≤ v → v ≤ (entries.length : Int) →
      pyLower (pyStrip mode) ∈ quitSet →
      interactiveSel env entries choice mode = ([], .ret)) := by
  refine ⟨?_, ?_, ?_⟩
  · intro h1 h2 h3
    simp [interactiveRun, requireTool, h1, h2, interactiveBody, h3]
  · intro h
    exact ⟨by simp [interactiveSel, h], by simp [quickSel, h]⟩
  · intro h1 h2 h3 h4 h5
    have hne : pyStrip choice ≠ "" := by
      intro he
      rw [he, show pyIntOfString "" = none from rfl] at h2
      exact Option.noConfusion h2
    have h6 : ¬(v < 1 ∨ (entries.length : Int) < v) := by
      push_neg
      exact ⟨h3, h4⟩
    simp [interactiveSel, h1, hne, h2, h6, h5]

/-- Claim C7 witness: sentinel "Q" at the query prompt. -/
theorem claim_C7_witness :
    interactiveRun sampleEnv "Q" "1" "a" =
      ([.checkTool "yt-dlp", .checkTool "mpv",
        .msg "Ketik 'q' untuk keluar kapan saja."], .ret) :=
  (claim_C7 sampleEnv "Q" "1" "a" [] false 0).1 (by decide) (by decide) (by decide)

theorem truthyUrl_not_empty (e : Entry) (u : String) (h : truthyUrl e = some u) :
    u ≠ "" := by
  unfold truthyUrl at h
  rcases hq : queueUrl e with _ | w
  · rw [hq] at h
    exact Option.noConfusion h
  · rw [hq] at h
    by_cases hw : w = ""
    · simp [hw] at h
    · simp [hw] at h
      subst h
      exact hw

theorem truthyUrl_eq_some (e : Entry) (u : String) (h : truthyUrl e = some u) :
    queueUrl e = some u := by
  unfold truthyUrl at h
  rcases hq : queueUrl e with _ | w
  · rw [hq] at h
    exact Option.noConfusion h
  · rw [hq] at h
    by_cases hw : w = ""
    · simp [hw] at h
    · simp [hw] at h
      simp [h]

/-- Claim C6 counterexample: the play subcommand with --search, all tools
resolvable, runs the search subprocess before its mpv requirement is checked:
no mpv check precedes the search call, although mpv is checked (and invoked)
later in the very same run. -/
theorem claim_C6_cex :
    checkBeforeSearch "mpv" (playCmdRun sampleEnv "song" false true).1 = false ∧
    Ev.checkTool "mpv" ∈ (playCmdRun sampleEnv "song" false true).1 ∧
    Ev.playCall "https://a" false ∈ (playCmdRun sampleEnv "song" false true).1 :=
  ⟨by decide, by decide, by decide⟩

/-- Claim C6 (amended): interactive and quick-search check yt-dlp and mpv,
and the search command checks yt-dlp, before any search call; play checks
yt-dlp before any search call but checks mpv only as part of the player
invocation itself — after the search call on its --search path — though
always before any player invocation; a missing tool is fatal with guidance
text and exit status 1, including play's in-player mpv check on both the
direct-URL path and the --search path once a playable URL is resolved. -/
theorem claim_C6_amended (env : Env) (query choice mode qa target ch : String)
    (limit : Int) (video ds : Bool) :
    checkBeforeSearch "yt-dlp" (interactiveRun env query choice mode).1 = true ∧
    checkBeforeSearch "mpv" (interactiveRun env query choice mode).1 = true ∧
    checkBeforeSearch "yt-dlp" (quickSearchRun env qa limit video ch).1 = true ∧
    checkBeforeSearch "mpv" (quickSearchRun env qa limit video ch).1 = true ∧
    checkBeforeSearch "yt-dlp" (searchCmdRun env qa limit).1 = true ∧
    checkBeforeSearch "yt-dlp" (playCmdRun env target video ds).1 = true ∧
    checkBeforePlay "mpv" (playCmdRun env target video ds).1 = true ∧
    (env.avail "yt-dlp" = false →
      interactiveRun env query choice mode =
        (.checkTool "yt-dlp" :: missingToolMsgs "yt-dlp", .exit 1) ∧
      quickSearchRun env qa limit video ch =
        (.checkTool "yt-dlp" :: missingToolMsgs "yt-dlp", .exit 1) ∧
      searchCmdRun env qa limit =
        (.checkTool "yt-dlp" :: missingToolMsgs "yt-dlp", .exit 1) ∧
      playCmdRun env target video ds =
        (.checkTool "yt-dlp" :: missingToolMsgs "yt-dlp", .exit 1)) ∧
    (env.avail "yt-dlp" = true → env.avail "mpv" = false →
      interactiveRun env query choice mode =
        (.checkTool "yt-dlp" :: .checkTool "mpv" :: missingToolMsgs "mpv", .exit 1) ∧
      quickSearchRun env qa limit video ch =
        (.checkTool "yt-dlp" :: .checkTool "mpv" :: missingToolMsgs "mpv", .exit 1)) ∧
    (env.avail "yt-dlp" = true → env.avail "mpv" = false →
      playCmdRun env target video false =
        (.checkTool "yt-dlp" :: .checkTool "mpv" :: missingToolMsgs "mpv", .exit 1) ∧
      (∀ e rest u, searchValue env.proc env.parsed = .ok (e :: rest) →
        truthyUrl e = some u →
        playCmdRun env target video true =
          (.checkTool "yt-dlp" :: .searchCall ("ytsearch1:" ++ target) ::
            .checkTool "mpv" :: missingToolMsgs "mpv", .exit 1))) := by
  refine ⟨?_, ?_, ?_, ?_, ?_, ?_, ?_, ?_, ?_, ?_⟩
  · cases hy : env.avail "yt-dlp" <;>
      simp [interactiveRun, requireTool, hy, cbs_check_eq]
  · cases hy : env.avail "yt-dlp"
    · simp only [interactiveRun, requireTool, hy, Bool.false_eq_true, if_false]
      decide
    · simp only [interactiveRun, requireTool, hy, if_true]
      rw [cbs_check_ne (by decide)]
      cases hm : env.avail "mpv"
      · simp only [hm, Bool.false_eq_true, if_false]
        decide
      · simp only [hm, if_true]
        exact cbs_check_eq _ _
  · cases hy : env.avail "yt-dlp" <;>
      simp [quickSearchRun, requireTool, hy, cbs_check_eq]
  · cases hy : env.avail "yt-dlp"
    · simp only [quickSearchRun, requireTool, hy, Bool.false_eq_true, if_false]
      decide
    · simp only [quickSearchRun, requireTool, hy, if_true]
      rw [cbs_check_ne (by decide)]
      cases hm : env.avail "mpv"
      · simp only [hm, Bool.false_eq_true, if_false]
        decide
      · simp only [hm, if_true]
        exact cbs_check_eq _ _
  · cases hy : env.avail "yt-dlp" <;>
      simp [searchCmdRun, requireTool, hy, cbs_check_eq]
  · cases hy : env.avail "yt-dlp" <;>
      simp [playCmdRun, requireTool, hy, cbs_check_eq]
  · cases hy : env.avail "yt-dlp"
    · simp only [playCmdRun, requireTool, hy, Bool.false_eq_true, if_false]
      decide
    · simp only [playCmdRun, requireTool, hy, if_true]
      rw [cbp_check_ne (by decide)]
      cases ds
      · simp only [Bool.false_eq_true, if_false, finishPlay, play_url]
        cases hm : env.avail "mpv"
        · simp only [hm, Bool.false_eq_true, if_false]
          simp [cbp_check_eq]
        · simp only [hm, if_true]
          simp [cbp_check_eq]
      · simp only [if_true]
        rcases hsv : searchValue env.proc env.parsed with ⟨c, msgs⟩ | entries
        · simp only [searchStep, hsv]
          rw [cbp_searchCall]
          exact cbp_map_msg _ _
        · simp only [searchStep, hsv]
          rcases entries with _ | ⟨e, rest⟩
          · simp [cbp_searchCall, cbp_msg, cbp_nil]
          · rcases hu : playSearchUrl e with _ | u
            · simp [hu, cbp_searchCall, cbp_msg, cbp_nil]
            · by_cases he : u = ""
              · simp [hu, he, cbp_searchCall, cbp_msg, cbp_nil]
              · simp only [hu, he, if_false, finishPlay, play_url]
                cases hm : env.avail "mpv"
                · simp only [hm, Bool.false_eq_true, if_false]
                  simp [cbp_searchCall, cbp_check_eq]
                · simp only [hm, if_true]
                  simp [cbp_searchCall, cbp_check_eq]
  · intro hy
    refine ⟨?_, ?_, ?_, ?_⟩ <;> simp [interactiveRun, quickSearchRun, searchCmdRun,
      playCmdRun, requireTool, hy]
  · intro hy hm
    exact ⟨by simp [interactiveRun, requireTool, hy, hm],
      by simp [quickSearchRun, requireTool, hy, hm]⟩
  · intro hy hm
    constructor
    · simp [playCmdRun, requireTool, hy, finishPlay, play_url, hm]
    · intro e rest u hsv ht
      have hq : playSearchUrl e = some u := truthyUrl_eq_some e u ht
      have hne : u ≠ "" := truthyUrl_not_empty e u ht
      simp [playCmdRun, requireTool, hy, searchStep, hsv, hq, hne, finishPlay,
        play_url, hm]

/-- Claim C6 witness: with no tools resolvable, every command exits 1 after
the yt-dlp check and its guidance text; with only mpv missing, the play
command exits 1 with mpv guidance on the direct path and, on the --search
path, after the search call once a playable URL is resolved. -/
theorem claim_C6_witness :
    (interactiveRun sampleEnvNoTools "x" "1" "a" =
      (.checkTool "yt-dlp" :: missingToolMsgs "yt-dlp", .exit 1) ∧
    quickSearchRun sampleEnvNoTools "x" 10 false "1" =
      (.checkTool "yt-dlp" :: missingToolMsgs "yt-dlp", .exit 1) ∧
    searchCmdRun sampleEnvNoTools "x" 10 =
      (.checkTool "yt-dlp" :: missingToolMsgs "yt-dlp", .exit 1) ∧
    playCmdRun sampleEnvNoTools "x" false false =
      (.checkTool "yt-dlp" :: missingToolMsgs "yt-dlp", .exit 1)) ∧
    playCmdRun sampleEnvNoMpv "x" false false =
      (.checkTool "yt-dlp" :: .checkTool "mpv" :: missingToolMsgs "mpv", .exit 1) ∧
    playCmdRun sampleEnvNoMpv "song" false true =
      (.checkTool "yt-dlp" :: .searchCall ("ytsearch1:" ++ "song") ::
        .checkTool "mpv" :: missingToolMsgs "mpv", .exit 1) :=
  ⟨(claim_C6_amended sampleEnvNoTools "x" "1" "a" "x" "x" "1" 10 false
      false).2.2.2.2.2.2.2.1 (by decide),
    ((claim_C6_amended sampleEnvNoMpv "x" "1" "a" "x" "x" "1" 10 false
      false).2.2.2.2.2.2.2.2.2 (by decide) (by decide)).1,
    ((claim_C6_amended sampleEnvNoMpv "x" "1" "a" "x" "song" "1" 10 false
      true).2.2.2.2.2.2.2.2.2 (by decide) (by decide)).2 entA [entC, entB]
      "https://a" (by decide) (by decide)⟩

/-- Claim C8 counterexample: in the spinner-showing invocation, the captured
output is read (by communicate) strictly before the stop signal and the join:
the indicator is not stopped and joined before the primary thread reads the
captured output, but only before that output is consumed. -/
theorem claim_C8_cex :
    spinnerShown "Searching" true = true ∧
    (runSteps true).indexOf RStep.communicateRead < (runSteps true).indexOf RStep.stopSignal ∧
    (runSteps true).indexOf RStep.communicateRead < (runSteps true).indexOf RStep.threadJoin ∧
    RStep.threadJoin ∈ runSteps true :=
  ⟨by decide, by decide, by decide, by decide⟩

/-- Claim C8 (amended): in every spinner-showing invocation the indicator is
signalled to stop and fully joined after communicate() returns — which both
waits for the subprocess and reads its captured output — and before that
output is consumed (exit-code handling and JSON parsing), so no background
indicator activity remains when the output is consumed; without a spinner no
indicator thread exists at all. -/
theorem claim_C8_amended :
    spinnerShown "Searching" true = true ∧
    (runSteps true).indexOf RStep.communicateRead < (runSteps true).indexOf RStep.stopSignal ∧
    (runSteps true).indexOf RStep.stopSignal < (runSteps true).indexOf RStep.threadJoin ∧
    (runSteps true).indexOf RStep.threadJoin < (runSteps true).indexOf RStep.consumeOutput ∧
    RStep.spinnerStart ∉ runSteps false ∧
    RStep.threadJoin ∉ runSteps false := by
  decide

theorem printedUrl_eq (e : Entry) : printedUrl e = (truthyUrl e).getD "" := by
  rcases hw : e.webpage_url with _ | w
  · rcases hu : e.url with _ | u
    · simp [printedUrl, truthyUrl, queueUrl, pyOrDefault, pyOr, truthyS, hw, hu]
    · by_cases h : u = "" <;>
        simp [printedUrl, truthyUrl, queueUrl, pyOrDefault, pyOr, truthyS, hw, hu, h]
  · by_cases h : w = ""
    · rcases hu : e.url with _ | u
      · simp [printedUrl, truthyUrl, queueUrl, pyOrDefault, pyOr, truthyS, hw, hu, h]
      · by_cases h2 : u = "" <;>
          simp [printedUrl, truthyUrl, queueUrl, pyOrDefault, pyOr, truthyS, hw, hu, h, h2]
    · simp [printedUrl, truthyUrl, queueUrl, pyOrDefault, pyOr, truthyS, hw, h]

/-- Claim C10: the listing, the autoplay queue and the play --search path
derive the playable URL by the identical fallback chain (webpage_url when
truthy, else url); the URL line is printed exactly when that chain is truthy,
and then the displayed URL is exactly the URL that would be played; an entry
whose URL fields are present but empty strings has no URL: no second listing
line, and autoplay skips it. -/
theorem claim_C10 (e : Entry) (env : Env) (video : Bool) :
    printedUrl e = pyOrDefault (queueUrl e) "" ∧
    queueUrl e = playSearchUrl e ∧
    (printedUrl e = "" ↔ truthyUrl e = none) ∧
    (∀ u, truthyUrl e = some u → printedUrl e = u) ∧
    (e.webpage_url = some "" → e.url = some "" →
      printedUrl e = "" ∧ truthyUrl e = none ∧
      print_results [e] = [.msg (resultLine 1 e)]) ∧
    (env.avail "mpv" = true → truthyUrl e = none →
      play_queue env [e] 0 video =
        ([.msg "Autoplay aktif: akan memutar urutan berikutnya. Tekan Ctrl+C untuk berhenti."],
          .ret)) ∧
    print_results [e] =
      .msg (resultLine 1 e) ::
        (if printedUrl e ≠ "" then [.msg ("    " ++ printedUrl e)] else []) := by
  refine ⟨rfl, rfl, ?_, ?_, ?_, ?_, by simp [print_results]⟩
  · rw [printedUrl_eq]
    rcases ht : truthyUrl e with _ | u
    · simp
    · simp [Option.getD]
      exact truthyUrl_not_empty e u ht
  · intro u h
    rw [printedUrl_eq, h]
    rfl
  · intro hw hu
    have ht : truthyUrl e = none := by
      simp [truthyUrl, queueUrl, pyOr, truthyS, hw, hu]
    have hp : printedUrl e = "" := by rw [printedUrl_eq, ht]; rfl
    exact ⟨hp, ht, by simp [print_results, hp]⟩
  · intro hm ht
    have hloop := pqLoop_eq env video hm [e] 0
    simp [play_queue, hloop, playedEvsFor, ht]

/-- Claim C10 witness: the entry with empty-string URL fields. -/
theorem claim_C10_witness :
    printedUrl entC = "" ∧ truthyUrl entC = none ∧
    print_results [entC] = [.msg (resultLine 1 entC)] :=
  (claim_C10 entC sampleEnv false).2.2.2.2.1 rfl rfl

end YtPlayer

